import Mathlib

/-!
Shallow embedding of the timeliner Google Calendar connector
(src/datasources/googlecalendar/googlecalendar.go and event.go).

Pure functions become Lean functions; the channel-based control flow of
`ListItems` is sequentialized into an explicit event trace (the Go code
spawns a single goroutine and joins it through a synchronous error
channel before the deferred close runs, so the interleaving is fixed).
The remote Calendar API and the HTTP transport are passed in as oracles.
-/

set_option linter.unusedVariables false

namespace GoogleCalendar

/-- Go `time.Time` reduced to what the connector observes: an instant whose
zero value is the Go zero time. -/
structure GoTime where
  sec : Int := 0
deriving DecidableEq

/-- Whether a `GoTime` is the Go zero value `time.Time{}`. -/
def GoTime.isZero (t : GoTime) : Bool := t.sec == 0

/-- Opaque carrier for Go `float64` fields; the connector only copies these
values verbatim, so no floating-point arithmetic needs to be modelled. -/
structure GoFloat where
  val : Int := 0
deriving DecidableEq

/-- `EventPerson` from event.go. -/
structure EventPerson where
  DisplayName : String := ""
  Email : String := ""
  Id : String := ""
  Self : Bool := false
deriving DecidableEq

/-- `EventAttendee` from event.go. -/
structure EventAttendee where
  AdditionalGuests : Int := 0
  Comment : String := ""
  DisplayName : String := ""
  Email : String := ""
  Id : String := ""
  Optional : Bool := false
  Organizer : Bool := false
  Resource : Bool := false
  ResponseStatus : String := ""
  Self : Bool := false
deriving DecidableEq

/-- `EventDateTime` from event.go. -/
structure EventDateTime where
  Date : String := ""
  DateTime : String := ""
  TimeZone : String := ""
deriving DecidableEq

/-- Modelled from the spec: the photo sub-block referenced by
`eventItem.Metadata` and `eventItem.DataFileReader` in event.go but absent
from the declared Go structs; field set follows the usage sites
(camera attributes, exposure) described in the spec. -/
structure PhotoMeta where
  CameraMake : String := ""
  CameraModel : String := ""
  FocalLength : GoFloat := {}
  ApertureFNumber : GoFloat := {}
  ISOEquivalent : Int := 0
  ExposureTime : String := ""
deriving DecidableEq

/-- Modelled from the spec: the video sub-block referenced by
`eventItem.Metadata` and `eventItem.DataFileReader` in event.go but absent
from the declared Go structs; `Status` is the processing status the spec
calls the transcoding/processing status. -/
structure VideoMeta where
  CameraMake : String := ""
  CameraModel : String := ""
  FPS : GoFloat := {}
  Status : String := ""
deriving DecidableEq

/-- `eventMetadata` from event.go. The declared Go struct carries the fields
up to `Updated`; the fields after it (`CreationTime`, `Height`, `Photo`,
`Video`) are referenced by the methods in event.go without being declared,
and are modelled from the spec (timestamp, pixel dimensions, media
sub-blocks). Every field defaults to its Go zero value. -/
structure eventMetadata where
  Attendees : List EventAttendee := []
  Created : String := ""
  Creator : Option EventPerson := none
  Description : String := ""
  End : Option EventDateTime := none
  EndTimeUnspecified : Bool := false
  HtmlLink : String := ""
  ICalUID : String := ""
  Id : String := ""
  Kind : String := ""
  Location : String := ""
  Organizer : Option EventPerson := none
  OriginalStartTime : Option EventDateTime := none
  Recurrence : List String := []
  RecurringEventId : String := ""
  Sequence : Int := 0
  Start : Option EventDateTime := none
  Status : String := ""
  Summary : String := ""
  Updated : String := ""
  CreationTime : GoTime := {}
  Height : String := ""
  Photo : Option PhotoMeta := none
  Video : Option VideoMeta := none
deriving DecidableEq

/-- Modelled from the spec: the contributor block used by `eventItem.Owner`
in event.go but absent from the declared Go structs. -/
structure ContributorInfo where
  DisplayName : String := ""
deriving DecidableEq

/-- `eventItem` from event.go. `eventID`, `BaseURL`, `Description` and
`EventMetadata` are declared in the Go struct; `Filename`, `MIMEType` and
`ContributorInfo` are referenced by the methods without being declared and
are modelled from the spec (fileRef name, MIME type, owner attribution).
Every field defaults to its Go zero value, so `{}` is Go `eventItem{}`. -/
structure eventItem where
  eventID : String := ""
  BaseURL : String := ""
  Description : String := ""
  EventMetadata : eventMetadata := {}
  Filename : String := ""
  MIMEType : String := ""
  ContributorInfo : ContributorInfo := {}
deriving DecidableEq

/-- `eventItem.ID` from event.go. -/
def eventItem.ID (m : eventItem) : String := m.eventID

/-- `eventItem.Timestamp` from event.go. -/
def eventItem.Timestamp (m : eventItem) : GoTime := m.EventMetadata.CreationTime

/-- `eventItem.DataText` from event.go: returns `(&m.Description, nil)`. -/
def eventItem.DataText (m : eventItem) : Option String × Option String :=
  (some m.Description, none)

/-- `eventItem.DataFileName` from event.go. -/
def eventItem.DataFileName (m : eventItem) : Option String := some m.Filename

/-- `eventItem.DataFileHash` from event.go: always nil. -/
def eventItem.DataFileHash (m : eventItem) : Option (List Nat) := none

/-- `eventItem.DataFileMIMEType` from event.go. -/
def eventItem.DataFileMIMEType (m : eventItem) : Option String := some m.MIMEType

/-- `eventItem.Owner` from event.go: `(id, name)`, id always nil, name the
contributor display name when non-empty. -/
def eventItem.Owner (m : eventItem) : Option String × Option String :=
  if m.ContributorInfo.DisplayName ≠ "" then (none, some m.ContributorInfo.DisplayName)
  else (none, none)

/-- `eventItem.Location` from event.go: always `(nil, nil)`. -/
def eventItem.Location (m : eventItem) : Option (Int × Int) × Option String := (none, none)

/-- Decimal digit accumulation for `atoi`: fails once a non-digit is seen. -/
def parseDigits : List Char → Nat → Option Nat
  | [], n => some n
  | c :: cs, n => if c.isDigit then parseDigits cs (n * 10 + (c.toNat - 48)) else none

/-- Go `strconv.Atoi` on the inputs the connector produces: an optional
leading minus followed by at least one decimal digit parses, anything else
(including the empty string) errors, modelled as `none`. -/
def atoi (s : String) : Option Int :=
  match s.data with
  | [] => none
  | '-' :: [] => none
  | '-' :: cs => (parseDigits cs 0).map (fun n => -(n : Int))
  | cs => parseDigits cs 0

/-- Modelled from the spec: the host `timeliner.Metadata` record (the
timeliner package is not under src/). Field set follows the usage in
`eventItem.Metadata`; Go `int`, `float64` and `time.Duration` fields have
zero values, they cannot be absent. -/
structure TMetadata where
  Width : Int := 0
  Height : Int := 0
  CameraMake : String := ""
  CameraModel : String := ""
  FocalLength : GoFloat := {}
  ApertureFNumber : GoFloat := {}
  ISOEquivalent : Int := 0
  ExposureTime : Int := 0
  FPS : GoFloat := {}
deriving DecidableEq

/-- `eventItem.Metadata` from event.go. `parseDur` is the external Go
stdlib `time.ParseDuration`, supplied as an oracle (`none` = parse error).
Note the Go code parses the literal string `"0"` as the width, and parses
`m.EventMetadata.Height` as the height; a parse failure aborts with an
error. The Go error strings interpolate the stdlib error text, modelled
here by a fixed "invalid" marker. -/
def eventItem.Metadata (m : eventItem) (parseDur : String → Option Int) :
    Except String TMetadata :=
  match atoi "0" with
  | none => .error ("parsing width as int: invalid (width=" ++ "0" ++ ")")
  | some widthInt =>
    match atoi m.EventMetadata.Height with
    | none => .error ("parsing height as int: invalid (height=" ++ m.EventMetadata.Height ++ ")")
    | some heightInt =>
      let meta : TMetadata := { Width := widthInt, Height := heightInt }
      match m.EventMetadata.Photo with
      | some p =>
        let meta := { meta with
          CameraMake := p.CameraMake
          CameraModel := p.CameraModel
          FocalLength := p.FocalLength
          ApertureFNumber := p.ApertureFNumber
          ISOEquivalent := p.ISOEquivalent }
        if p.ExposureTime ≠ "" then
          match parseDur p.ExposureTime with
          | none => .error ("parsing exposure time as duration: invalid (exposure_time=" ++
              p.ExposureTime ++ ")")
          | some d => .ok { meta with ExposureTime := d }
        else .ok meta
      | none =>
        match m.EventMetadata.Video with
        | some v => .ok { meta with
            CameraMake := v.CameraMake
            CameraModel := v.CameraModel
            FPS := v.FPS }
        | none => .ok meta

/-- Outcome of one `http.Get` attempt inside `eventItem.DataFileReader`:
either a transport-level failure (Go returns a nil response then), or an
HTTP response with status code, status text and body; `readOk` says whether
reading the body snippet (`ioutil.ReadAll` of the limited reader) succeeds. -/
inductive FetchAttempt where
  | transportError (msg : String)
  | response (statusCode : Nat) (status : String) (bodyText : String) (readOk : Bool)
deriving DecidableEq

/-- An HTTP response body as the caller of `DataFileReader` sees it:
`closed` records whether `resp.Body.Close()` already ran in the retry loop. -/
structure RespBody where
  statusCode : Nat := 0
  status : String := ""
  bodyText : String := ""
  closed : Bool := false
deriving DecidableEq

/-- The mutable state of the retry loop in `eventItem.DataFileReader`:
the `err` and `resp` variables, plus the observable request count and the
sleep durations (seconds) performed so far. -/
structure FetchState where
  err : Option String := none
  resp : Option RespBody := none
  requests : Nat := 0
  sleeps : List Nat := []
deriving DecidableEq

/-- The truncation `io.LimitReader(resp.Body, 1024*256)` performs when the
body snippet is read: at most `n` bytes of the body are kept. Bodies are
modelled as char strings; on them the byte limit is the char-list take. -/
def takeSnippet (s : String) (n : Nat) : String := ⟨s.data.take n⟩

/-- The error text the loop stores for a non-200 response: with the body
snippet truncated to 256 KiB when the snippet read succeeded, without it
otherwise (event.go lines 286-294). -/
def badStatusErr (code : Nat) (statusText bodyText : String) (readOk : Bool) : String :=
  if readOk then
    "HTTP " ++ toString code ++ ": " ++ statusText ++ ": >>> " ++
      takeSnippet bodyText (1024 * 256) ++ " <<<"
  else
    "HTTP " ++ toString code ++ ": " ++ statusText

/-- The `for i := 0; i < maxTries; i++` loop of `eventItem.DataFileReader`:
`remaining` is the number of iterations left, `i` the attempt index fed to
the transport oracle. Each iteration begins with the tuple assignment
`resp, err = http.Get(u)`, which overwrites `err`: nil on any completed
HTTP exchange, non-nil only on a transport failure. A transport error
then wraps the message, leaves `resp` nil and sleeps 30s; a non-200
response closes the body, stores the truncated-snippet error and sleeps
15s; a 200 response breaks out with the open body and `err` nil (just
cleared by the assignment). -/
def fetchLoop (attempts : Nat → FetchAttempt) : Nat → Nat → FetchState → FetchState
  | 0, _, st => st
  | remaining + 1, i, st =>
    match attempts i with
    | .transportError msg =>
        fetchLoop attempts remaining (i + 1)
          { err := some ("getting event contents: " ++ msg)
            resp := none
            requests := st.requests + 1
            sleeps := st.sleeps ++ [30] }
    | .response code statusText bodyText readOk =>
        if code ≠ 200 then
          fetchLoop attempts remaining (i + 1)
            { err := some (badStatusErr code statusText bodyText readOk)
              resp := some { statusCode := code, status := statusText,
                             bodyText := bodyText, closed := true }
              requests := st.requests + 1
              sleeps := st.sleeps ++ [15] }
        else
          { err := none
            resp := some { statusCode := code, status := statusText,
                           bodyText := bodyText, closed := false }
            requests := st.requests + 1
            sleeps := st.sleeps }

/-- What `eventItem.DataFileReader` returns and does: the returned stream
and error, the number of HTTP requests issued and the sleeps performed. -/
structure FetchResult where
  stream : Option RespBody := none
  error : Option String := none
  requests : Nat := 0
  sleeps : List Nat := []
deriving DecidableEq

/-- The body of `eventItem.DataFileReader` past the readiness check: the
loop above runs with `maxTries = 5` and the function returns `(nil, err)`
when the `resp` variable ended nil, `(resp.Body, err)` otherwise — on a
200 break `err` is nil, the `http.Get` assignment having cleared it. -/
def runFetch (attempts : Nat → FetchAttempt) : FetchResult :=
  let st := fetchLoop attempts 5 0 {}
  match st.resp with
  | none => { stream := none, error := st.err, requests := st.requests, sleeps := st.sleeps }
  | some r => { stream := some r, error := st.err, requests := st.requests, sleeps := st.sleeps }

/-- `eventItem.DataFileReader` from event.go. When a video block is present
with a status other than READY the fetch is skipped and `(nil, nil)` is
returned without touching the network; otherwise the URL is built from
`BaseURL` plus the media suffix and the retry loop runs. The URL only
selects the target, which the transport oracle `attempts` abstracts, so it
is not part of the observable result. -/
def eventItem.DataFileReader (m : eventItem) (attempts : Nat → FetchAttempt) :
    FetchResult :=
  match m.EventMetadata.Video with
  | some v =>
    if v.Status ≠ "READY" then
      { stream := none, error := none, requests := 0, sleeps := [] }
    else
      runFetch attempts
  | none => runFetch attempts

/-- Modelled from the spec: `timeliner.Timeframe` (the ListingWindow), a
pair of optional bounds; instants are carried as the RFC3339 strings the
connector formats. The timeliner package is not under src/. -/
structure Timeframe where
  Since : Option String := none
  Until : Option String := none
deriving DecidableEq

/-- Modelled from the spec: the subset of `timeliner.Options` the connector
reads — the file-import path and the time window. -/
structure Options where
  Filename : String := ""
  Timeframe : Timeframe := {}
deriving DecidableEq

/-- Modelled from the spec: an `timeliner.ItemGraph` as the connector
builds it — only the `Node` field is populated. -/
structure ItemGraph where
  Node : eventItem := {}
deriving DecidableEq

/-- One listing request as `listItems` assembles it on the
`srv.Events.List("primary")` builder chain (googlecalendar.go lines 96-97). -/
structure ListRequest where
  calendarId : String
  showDeleted : Bool
  singleEvents : Bool
  timeMin : String
  maxResults : Nat
  orderBy : String
  pageToken : Option String
deriving DecidableEq

/-- A raw event of a listing response, reduced to the fields relevant to
normalization (identifier, title, start time). -/
structure RawEvent where
  Id : String := ""
  Summary : String := ""
  Start : Option EventDateTime := none
deriving DecidableEq

/-- A page returned by the remote listing call: the raw events plus the
continuation token (empty when no further page exists). -/
structure ListResponse where
  Items : List RawEvent := []
  NextPageToken : String := ""
deriving DecidableEq

/-- The remote Calendar API supplied as an oracle: a listing request maps
to an error or a page. -/
def CalendarAPI : Type := ListRequest → Except String ListResponse

/-- The request `listItems` builds: `ShowDeleted(false).SingleEvents(true).
TimeMin(t).MaxResults(10).OrderBy("startTime")` where `t` is
`time.Now().Format(time.RFC3339)`, passed in as `now`. No page token is
ever set. -/
def buildListRequest (now : String) : ListRequest :=
  { calendarId := "primary"
    showDeleted := false
    singleEvents := true
    timeMin := now
    maxResults := 10
    orderBy := "startTime"
    pageToken := none }

instance {ε α : Type} [DecidableEq ε] [DecidableEq α] : DecidableEq (Except ε α)
  | .error e, .error f =>
    if h : e = f then isTrue (congrArg Except.error h)
    else isFalse (fun hh => h (Except.error.inj hh))
  | .error _, .ok _ => isFalse (fun hh => Except.noConfusion hh)
  | .ok _, .error _ => isFalse (fun hh => Except.noConfusion hh)
  | .ok u, .ok v =>
    if h : u = v then isTrue (congrArg Except.ok h)
    else isFalse (fun hh => h (Except.ok.inj hh))

/-- What one run of `listItems` returns and does: the returned error (Go
`error`, `.ok ()` for nil), the item graphs sent on `itemChan` in order,
and the listing requests issued. -/
structure ListOutcome where
  result : Except String Unit := .ok ()
  emitted : List ItemGraph := []
  requests : List ListRequest := []
deriving DecidableEq

/-- `Client.listItems` from googlecalendar.go: issues exactly one listing
request; on error returns the wrapped error, otherwise sends, for each raw
item of the page, an `ItemGraph` whose node is the zero-valued
`var event eventItem` (the raw item is logged but never copied into
`event`). The `timeframe` parameter is received but never read. -/
def listItems (api : CalendarAPI) (now : String) (timeframe : Timeframe) : ListOutcome :=
  let req := buildListRequest now
  match api req with
  | .error e =>
    { result := .error ("getting items on next page: " ++ e)
      emitted := []
      requests := [req] }
  | .ok events =>
    { result := .ok ()
      emitted := events.Items.map (fun _ => { Node := {} })
      requests := [req] }

/-- An observable event in the life of the output channel of `ListItems`:
an item sent on `itemChan`, the termination of the listing goroutine (its
`errChan` send after `listItems` returns), and `close(itemChan)`. -/
inductive ChanEvent where
  | emit (g : ItemGraph)
  | taskDone
  | close
deriving DecidableEq

/-- What one run of `ListItems` returns and does: the returned error (Go
nil = `none`), the ordered trace of channel events, and the listing
requests issued. -/
structure ListItemsOutcome where
  result : Option String := none
  trace : List ChanEvent := []
  requests : List ListRequest := []
deriving DecidableEq

/-- `Client.ListItems` from googlecalendar.go, sequentialized. The Go code
defers `close(itemChan)`, rejects a non-empty `opt.Filename` before any
network call, then spawns one goroutine running `listItems` and joins it
by receiving once from a synchronous error channel, so the interleaving is
fixed: the emits of `listItems`, then the goroutine termination, then the
deferred close at return. A collected error is wrapped in the
`one or more errors` message joined with `, `. -/
def ListItems (api : CalendarAPI) (now : String) (opt : Options) : ListItemsOutcome :=
  if opt.Filename ≠ "" then
    { result := some "importing data from a file is not supported"
      trace := [ChanEvent.close]
      requests := [] }
  else
    let o := listItems api now opt.Timeframe
    let errs : List String :=
      match o.result with
      | .error e => [e]
      | .ok _ => []
    { result :=
        if errs.length > 0 then
          some ("one or more errors: " ++ String.intercalate ", " errs)
        else none
      trace := o.emitted.map ChanEvent.emit ++ [ChanEvent.taskDone, ChanEvent.close]
      requests := o.requests }

/-- Singleton join: `strings.Join([e], ", ") = e`. -/
theorem intercalate_singleton (s a : String) : String.intercalate s [a] = a := rfl

/-- C7: with a non-empty file-import path, `ListItems` returns the
configuration error immediately: no item is emitted, no listing task is
spawned, no request reaches the network; only the deferred close runs. -/
theorem C7_file_import_config_error (api : CalendarAPI) (now : String) (opt : Options)
    (h : opt.Filename ≠ "") :
    ListItems api now opt =
      { result := some "importing data from a file is not supported"
        trace := [ChanEvent.close]
        requests := [] } := by
  simp [ListItems, h]

/-- Witness for C7 at a concrete file-import invocation. -/
theorem C7_file_import_config_error_witness :
    ListItems (fun _ => .ok {}) "2026-10-11T00:00:00Z" { Filename := "takeout.zip" } =
      { result := some "importing data from a file is not supported"
        trace := [ChanEvent.close]
        requests := [] } :=
  C7_file_import_config_error (fun _ => .ok {}) "2026-10-11T00:00:00Z"
    { Filename := "takeout.zip" } (by decide)

/-- C8: without file import requested, `ListItems` returns nil exactly when
the (single) listing task returned nil, and when the task errored the
returned error is the combined message carrying that failure text. -/
theorem C8_error_aggregation (api : CalendarAPI) (now : String) (opt : Options)
    (h : opt.Filename = "") :
    ((ListItems api now opt).result = none ↔
      (listItems api now opt.Timeframe).result = .ok ()) ∧
    (∀ e, (listItems api now opt.Timeframe).result = .error e →
      (ListItems api now opt).result = some ("one or more errors: " ++ e)) := by
  have h2 : ¬ opt.Filename ≠ "" := by simp [h]
  constructor
  · cases hr : (listItems api now opt.Timeframe).result <;>
      simp [ListItems, h2, hr]
  · intro e he
    simp [ListItems, h2, he, intercalate_singleton]

/-- Witness for C8 at a concrete failing listing pass: the task error is
wrapped once by `listItems` and once more by the aggregation. -/
theorem C8_error_aggregation_witness :
    (((ListItems (fun _ => .error "quota exceeded") "2026-10-11T00:00:00Z" {}).result = none ↔
      (listItems (fun _ => .error "quota exceeded") "2026-10-11T00:00:00Z"
        (Options.Timeframe {})).result = .ok ()) ∧
    (∀ e, (listItems (fun _ => .error "quota exceeded") "2026-10-11T00:00:00Z"
        (Options.Timeframe {})).result = .error e →
      (ListItems (fun _ => .error "quota exceeded") "2026-10-11T00:00:00Z" {}).result =
        some ("one or more errors: " ++ e))) :=
  C8_error_aggregation (fun _ => .error "quota exceeded") "2026-10-11T00:00:00Z" {} rfl

/-- C9: a video payload whose processing status is not READY makes
`DataFileReader` skip the fetch entirely: zero HTTP requests, no sleeps,
and a nil stream paired with a nil error. -/
theorem C9_video_not_ready_skipped (m : eventItem) (attempts : Nat → FetchAttempt)
    (v : VideoMeta) (hv : m.EventMetadata.Video = some v) (hs : v.Status ≠ "READY") :
    m.DataFileReader attempts =
      { stream := none, error := none, requests := 0, sleeps := [] } := by
  simp [eventItem.DataFileReader, hv, hs]

/-- Witness for C9 at a concrete still-processing video item. -/
theorem C9_video_not_ready_skipped_witness :
    ({ EventMetadata := { Video := some { Status := "PROCESSING" } } } :
        eventItem).DataFileReader (fun _ => FetchAttempt.response 200 "200 OK" "bits" true) =
      { stream := none, error := none, requests := 0, sleeps := [] } :=
  C9_video_not_ready_skipped _ _ { Status := "PROCESSING" } rfl (by decide)

/-- C4: on every return path of `ListItems` the output channel is closed
exactly once and the close is the final channel event; when no
configuration error occurs (a listing task is spawned), the task
termination strictly precedes the close. -/
theorem C4_close_exactly_once (api : CalendarAPI) (now : String) (opt : Options) :
    ((ListItems api now opt).trace.count ChanEvent.close = 1) ∧
    ((ListItems api now opt).trace.getLast? = some ChanEvent.close) ∧
    (opt.Filename = "" → ChanEvent.taskDone ∈ (ListItems api now opt).trace.dropLast) := by
  by_cases h : opt.Filename = ""
  · have h2 : ¬ opt.Filename ≠ "" := by simp [h]
    have htr : (ListItems api now opt).trace =
        ((listItems api now opt.Timeframe).emitted.map ChanEvent.emit ++ [ChanEvent.taskDone])
          ++ [ChanEvent.close] := by
      simp [ListItems, h2]
    refine ⟨?_, ?_, fun _ => ?_⟩
    · rw [htr]
      have hz : ChanEvent.close ∉
          (listItems api now opt.Timeframe).emitted.map ChanEvent.emit := by simp
      simp [List.count_append, List.count_eq_zero.mpr hz]
    · rw [htr, List.getLast?_concat]
    · rw [htr, List.dropLast_concat]
      simp
  · refine ⟨?_, ?_, fun hc => absurd hc h⟩ <;> simp [ListItems, h]

/-- Witness for C4 at a concrete successful run with one listed item. -/
theorem C4_close_exactly_once_witness :
    (((ListItems (fun _ => .ok { Items := [{ Id := "e1" }] }) "2026-10-11T00:00:00Z"
        {}).trace.count ChanEvent.close = 1) ∧
    ((ListItems (fun _ => .ok { Items := [{ Id := "e1" }] }) "2026-10-11T00:00:00Z"
        {}).trace.getLast? = some ChanEvent.close) ∧
    ((Options.Filename {}) = "" → ChanEvent.taskDone ∈
      (ListItems (fun _ => .ok { Items := [{ Id := "e1" }] }) "2026-10-11T00:00:00Z"
        {}).trace.dropLast)) :=
  C4_close_exactly_once (fun _ => .ok { Items := [{ Id := "e1" }] })
    "2026-10-11T00:00:00Z" {}

/-- C1: code bug exhibited — for a listing page holding a fully populated
raw event (non-empty id, parsable RFC3339 start time), the listing pass
reports success and emits an item graph whose node is the zero-valued
`eventItem`: its id is empty and its timestamp is the zero time. The loop
body declares `var event eventItem`, logs the raw item, and sends `event`
without ever copying the raw item into it, and no normalization-failure
path exists, so the emitted item is always half-populated. -/
theorem C1_half_populated_item_emitted :
    (listItems
      (fun _ =>
        Except.ok
          { Items := [{ Id := "abc123"
                        Summary := "standup"
                        Start := some { DateTime := "2026-01-01T10:00:00Z" } }]
            NextPageToken := "" })
      "2026-10-11T00:00:00Z" {}) =
      { result := .ok ()
        emitted := [{ Node := {} }]
        requests := [buildListRequest "2026-10-11T00:00:00Z"] } ∧
    ({} : eventItem).ID = "" ∧ (({} : eventItem).Timestamp).isZero = true := by
  decide

/-- C2: counterexample — the remote responses span two pages (the first
response returns continuation token "page2", and the request carrying that
token would return a second page with another event), yet the lister
issues exactly one request, never sends any continuation token, and emits
only as many items as the first page holds. -/
theorem C2_counterexample :
    (listItems
      (fun req => match req.pageToken with
        | none => .ok { Items := [{ Id := "e1" }], NextPageToken := "page2" }
        | some _ => .ok { Items := [{ Id := "e2" }], NextPageToken := "" })
      "2026-10-11T00:00:00Z" {}).requests =
        [buildListRequest "2026-10-11T00:00:00Z"] ∧
    (∀ r ∈ (listItems
      (fun req => match req.pageToken with
        | none => .ok { Items := [{ Id := "e1" }], NextPageToken := "page2" }
        | some _ => .ok { Items := [{ Id := "e2" }], NextPageToken := "" })
      "2026-10-11T00:00:00Z" {}).requests, r.pageToken = none) ∧
    (listItems
      (fun req => match req.pageToken with
        | none => .ok { Items := [{ Id := "e1" }], NextPageToken := "page2" }
        | some _ => .ok { Items := [{ Id := "e2" }], NextPageToken := "" })
      "2026-10-11T00:00:00Z" {}).emitted.length = 1 := by
  decide

/-- C2 amended: each listing pass issues exactly one listing request — the
continuation token of the response is never followed — and, when that
request succeeds, the pass emits exactly one node per item of that single
first page, in page order. -/
theorem C2_single_page_only (api : CalendarAPI) (now : String) (tf : Timeframe)
    (resp : ListResponse) (h : api (buildListRequest now) = .ok resp) :
    (listItems api now tf).requests = [buildListRequest now] ∧
    (listItems api now tf).emitted.length = resp.Items.length := by
  simp [listItems, h]

/-- Witness for the amended C2 at a concrete two-page provider. -/
theorem C2_single_page_only_witness :
    (listItems
      (fun req => match req.pageToken with
        | none => .ok { Items := [{ Id := "e1" }, { Id := "e2" }], NextPageToken := "page2" }
        | some _ => .ok { Items := [{ Id := "e3" }], NextPageToken := "" })
      "2026-10-11T00:00:00Z" {}).requests = [buildListRequest "2026-10-11T00:00:00Z"] ∧
    (listItems
      (fun req => match req.pageToken with
        | none => .ok { Items := [{ Id := "e1" }, { Id := "e2" }], NextPageToken := "page2" }
        | some _ => .ok { Items := [{ Id := "e3" }], NextPageToken := "" })
      "2026-10-11T00:00:00Z" {}).emitted.length = 2 := by
  have := C2_single_page_only
    (fun req => match req.pageToken with
      | none => .ok { Items := [{ Id := "e1" }, { Id := "e2" }], NextPageToken := "page2" }
      | some _ => .ok { Items := [{ Id := "e3" }], NextPageToken := "" })
    "2026-10-11T00:00:00Z" {}
    { Items := [{ Id := "e1" }, { Id := "e2" }], NextPageToken := "page2" } rfl
  simpa using this

/-- C3: counterexample — with a listing window whose start is present and
in the past (2020-01-01), the single request issued still carries the
current time (here 2026-10-11) as its lower time bound: the window start
is ignored, not used as the bound. -/
theorem C3_counterexample :
    (listItems (fun _ => .ok {}) "2026-10-11T00:00:00Z"
      { Since := some "2020-01-01T00:00:00Z" }).requests.length = 1 ∧
    ∀ r ∈ (listItems (fun _ => .ok {}) "2026-10-11T00:00:00Z"
      { Since := some "2020-01-01T00:00:00Z" }).requests,
        r.timeMin = "2026-10-11T00:00:00Z" ∧ ¬ r.timeMin = "2020-01-01T00:00:00Z" := by
  decide

/-- C3 amended: every listing request excludes deleted records, expands
recurring series to single events, orders by start time ascending, caps
the page size at 10, and always uses the current time as the lower time
bound — the window start is ignored even when present. -/
theorem C3_request_parameters (api : CalendarAPI) (now : String) (tf : Timeframe) :
    ∀ r ∈ (listItems api now tf).requests,
      r.showDeleted = false ∧ r.singleEvents = true ∧ r.orderBy = "startTime" ∧
      r.maxResults = 10 ∧ r.timeMin = now := by
  intro r hr
  have hreq : (listItems api now tf).requests = [buildListRequest now] := by
    cases h : api (buildListRequest now) <;> simp [listItems, h]
  rw [hreq] at hr
  simp only [List.mem_singleton] at hr
  subst hr
  exact ⟨rfl, rfl, rfl, rfl, rfl⟩

/-- Witness for the amended C3 at a concrete request. -/
theorem C3_request_parameters_witness :
    (buildListRequest "2026-10-11T00:00:00Z").showDeleted = false ∧
    (buildListRequest "2026-10-11T00:00:00Z").singleEvents = true ∧
    (buildListRequest "2026-10-11T00:00:00Z").orderBy = "startTime" ∧
    (buildListRequest "2026-10-11T00:00:00Z").maxResults = 10 ∧
    (buildListRequest "2026-10-11T00:00:00Z").timeMin = "2026-10-11T00:00:00Z" :=
  C3_request_parameters (fun _ => .ok {}) "2026-10-11T00:00:00Z"
    { Since := some "2020-01-01T00:00:00Z" }
    (buildListRequest "2026-10-11T00:00:00Z") (by decide)

/-- C6: code bug exhibited — for a record whose payload carries no width
(only a height of "240", no photo or video block), `Metadata` succeeds and
returns `Width = 0`: the absent numeric field is parsed from the hardcoded
literal string "0" and coerced to zero instead of being left absent. -/
theorem C6_absent_width_coerced_to_zero :
    ({ EventMetadata := { Height := "240" } } : eventItem).Metadata (fun _ => none) =
      .ok { Width := 0, Height := 240 } := by
  decide

/-- Loop unfolding: a transport-error attempt wraps the message, clears
the response, counts the request and sleeps 30s. -/
theorem fetchLoop_transport (attempts : Nat → FetchAttempt) (n i : Nat) (st : FetchState)
    (msg : String) (h : attempts i = .transportError msg) :
    fetchLoop attempts (n + 1) i st =
      fetchLoop attempts n (i + 1)
        { err := some ("getting event contents: " ++ msg)
          resp := none
          requests := st.requests + 1
          sleeps := st.sleeps ++ [30] } := by
  simp [fetchLoop, h]

/-- Loop unfolding: a non-200 response closes the body, stores the
truncated-snippet error, counts the request and sleeps 15s. -/
theorem fetchLoop_badStatus (attempts : Nat → FetchAttempt) (n i : Nat) (st : FetchState)
    (code : Nat) (statusText bodyText : String) (readOk : Bool)
    (h : attempts i = .response code statusText bodyText readOk) (hc : code ≠ 200) :
    fetchLoop attempts (n + 1) i st =
      fetchLoop attempts n (i + 1)
        { err := some (badStatusErr code statusText bodyText readOk)
          resp := some { statusCode := code, status := statusText,
                         bodyText := bodyText, closed := true }
          requests := st.requests + 1
          sleeps := st.sleeps ++ [15] } := by
  simp [fetchLoop, h, hc]

/-- Loop unfolding: a 200 response breaks out with the open body and a
nil error, the `http.Get` assignment having just cleared it. -/
theorem fetchLoop_ok (attempts : Nat → FetchAttempt) (n i : Nat) (st : FetchState)
    (statusText bodyText : String) (readOk : Bool)
    (h : attempts i = .response 200 statusText bodyText readOk) :
    fetchLoop attempts (n + 1) i st =
      { err := none
        resp := some { statusCode := 200, status := statusText,
                       bodyText := bodyText, closed := false }
        requests := st.requests + 1
        sleeps := st.sleeps } := by
  simp [fetchLoop, h]

/-- The loop issues at most one request per remaining iteration. -/
theorem fetchLoop_requests_le (attempts : Nat → FetchAttempt) (n : Nat) :
    ∀ (i : Nat) (st : FetchState), (fetchLoop attempts n i st).requests ≤ st.requests + n := by
  induction n with
  | zero => intro i st; simp [fetchLoop]
  | succ n ih =>
    intro i st
    cases h : attempts i with
    | transportError msg =>
      rw [fetchLoop_transport attempts n i st msg h]
      have h2 := ih (i + 1)
        { err := some ("getting event contents: " ++ msg)
          resp := none
          requests := st.requests + 1
          sleeps := st.sleeps ++ [30] }
      simp only [] at h2
      omega
    | response code statusText bodyText readOk =>
      by_cases hc : code = 200
      · subst hc
        rw [fetchLoop_ok attempts n i st statusText bodyText readOk h]
        simp
      · rw [fetchLoop_badStatus attempts n i st code statusText bodyText readOk h hc]
        have h2 := ih (i + 1)
          { err := some (badStatusErr code statusText bodyText readOk)
            resp := some { statusCode := code, status := statusText,
                           bodyText := bodyText, closed := true }
            requests := st.requests + 1
            sleeps := st.sleeps ++ [15] }
        simp only [] at h2
        omega

/-- `runFetch` projected onto the final loop state. -/
theorem runFetch_eq (attempts : Nat → FetchAttempt) :
    runFetch attempts =
      { stream := (fetchLoop attempts 5 0 {}).resp
        error := (fetchLoop attempts 5 0 {}).err
        requests := (fetchLoop attempts 5 0 {}).requests
        sleeps := (fetchLoop attempts 5 0 {}).sleeps } := by
  unfold runFetch
  cases hr : (fetchLoop attempts 5 0 {}).resp <;> simp [hr]

/-- Four non-200 responses followed by a 200: the loop ends with the open
200 body, a nil error (cleared by the final `http.Get` assignment), five
requests and four 15s sleeps. -/
theorem fetchLoop_four_bad_then_ok (a : Nat → FetchAttempt) (c : Nat → Nat)
    (s b : Nat → String) (r : Nat → Bool)
    (hbad : ∀ i, i < 4 → a i = .response (c i) (s i) (b i) (r i) ∧ c i ≠ 200)
    (hok : a 4 = .response 200 (s 4) (b 4) (r 4)) :
    fetchLoop a 5 0 {} =
      { err := none
        resp := some { statusCode := 200, status := s 4, bodyText := b 4, closed := false }
        requests := 5
        sleeps := [15, 15, 15, 15] } := by
  have e0 := hbad 0 (by omega)
  have e1 := hbad 1 (by omega)
  have e2 := hbad 2 (by omega)
  have e3 := hbad 3 (by omega)
  calc fetchLoop a 5 0 {}
      = fetchLoop a 4 1
          { err := some (badStatusErr (c 0) (s 0) (b 0) (r 0))
            resp := some { statusCode := c 0, status := s 0, bodyText := b 0, closed := true }
            requests := 1, sleeps := [15] } :=
        fetchLoop_badStatus a 4 0 {} (c 0) (s 0) (b 0) (r 0) e0.1 e0.2
    _ = fetchLoop a 3 2
          { err := some (badStatusErr (c 1) (s 1) (b 1) (r 1))
            resp := some { statusCode := c 1, status := s 1, bodyText := b 1, closed := true }
            requests := 2, sleeps := [15, 15] } :=
        fetchLoop_badStatus a 3 1 _ (c 1) (s 1) (b 1) (r 1) e1.1 e1.2
    _ = fetchLoop a 2 3
          { err := some (badStatusErr (c 2) (s 2) (b 2) (r 2))
            resp := some { statusCode := c 2, status := s 2, bodyText := b 2, closed := true }
            requests := 3, sleeps := [15, 15, 15] } :=
        fetchLoop_badStatus a 2 2 _ (c 2) (s 2) (b 2) (r 2) e2.1 e2.2
    _ = fetchLoop a 1 4
          { err := some (badStatusErr (c 3) (s 3) (b 3) (r 3))
            resp := some { statusCode := c 3, status := s 3, bodyText := b 3, closed := true }
            requests := 4, sleeps := [15, 15, 15, 15] } :=
        fetchLoop_badStatus a 1 3 _ (c 3) (s 3) (b 3) (r 3) e3.1 e3.2
    _ = { err := none
          resp := some { statusCode := 200, status := s 4, bodyText := b 4, closed := false }
          requests := 5, sleeps := [15, 15, 15, 15] } :=
        fetchLoop_ok a 0 4 _ (s 4) (b 4) (r 4) hok

/-- Five non-200 responses: the loop ends with the closed last body, the
last attempt's error, five requests and five 15s sleeps. -/
theorem fetchLoop_five_bad (a : Nat → FetchAttempt) (c : Nat → Nat)
    (s b : Nat → String) (r : Nat → Bool)
    (hbad : ∀ i, i < 5 → a i = .response (c i) (s i) (b i) (r i) ∧ c i ≠ 200) :
    fetchLoop a 5 0 {} =
      { err := some (badStatusErr (c 4) (s 4) (b 4) (r 4))
        resp := some { statusCode := c 4, status := s 4, bodyText := b 4, closed := true }
        requests := 5
        sleeps := [15, 15, 15, 15, 15] } := by
  have e0 := hbad 0 (by omega)
  have e1 := hbad 1 (by omega)
  have e2 := hbad 2 (by omega)
  have e3 := hbad 3 (by omega)
  have e4 := hbad 4 (by omega)
  calc fetchLoop a 5 0 {}
      = fetchLoop a 4 1
          { err := some (badStatusErr (c 0) (s 0) (b 0) (r 0))
            resp := some { statusCode := c 0, status := s 0, bodyText := b 0, closed := true }
            requests := 1, sleeps := [15] } :=
        fetchLoop_badStatus a 4 0 {} (c 0) (s 0) (b 0) (r 0) e0.1 e0.2
    _ = fetchLoop a 3 2
          { err := some (badStatusErr (c 1) (s 1) (b 1) (r 1))
            resp := some { statusCode := c 1, status := s 1, bodyText := b 1, closed := true }
            requests := 2, sleeps := [15, 15] } :=
        fetchLoop_badStatus a 3 1 _ (c 1) (s 1) (b 1) (r 1) e1.1 e1.2
    _ = fetchLoop a 2 3
          { err := some (badStatusErr (c 2) (s 2) (b 2) (r 2))
            resp := some { statusCode := c 2, status := s 2, bodyText := b 2, closed := true }
            requests := 3, sleeps := [15, 15, 15] } :=
        fetchLoop_badStatus a 2 2 _ (c 2) (s 2) (b 2) (r 2) e2.1 e2.2
    _ = fetchLoop a 1 4
          { err := some (badStatusErr (c 3) (s 3) (b 3) (r 3))
            resp := some { statusCode := c 3, status := s 3, bodyText := b 3, closed := true }
            requests := 4, sleeps := [15, 15, 15, 15] } :=
        fetchLoop_badStatus a 1 3 _ (c 3) (s 3) (b 3) (r 3) e3.1 e3.2
    _ = fetchLoop a 0 5
          { err := some (badStatusErr (c 4) (s 4) (b 4) (r 4))
            resp := some { statusCode := c 4, status := s 4, bodyText := b 4, closed := true }
            requests := 5, sleeps := [15, 15, 15, 15, 15] } :=
        fetchLoop_badStatus a 0 4 _ (c 4) (s 4) (b 4) (r 4) e4.1 e4.2
    _ = { err := some (badStatusErr (c 4) (s 4) (b 4) (r 4))
          resp := some { statusCode := c 4, status := s 4, bodyText := b 4, closed := true }
          requests := 5, sleeps := [15, 15, 15, 15, 15] } := rfl

/-- Five transport errors: the loop ends with no response, the last
wrapped transport error, five requests and five 30s sleeps. -/
theorem fetchLoop_five_transport (a : Nat → FetchAttempt) (msgs : Nat → String)
    (hbad : ∀ i, i < 5 → a i = .transportError (msgs i)) :
    fetchLoop a 5 0 {} =
      { err := some ("getting event contents: " ++ msgs 4)
        resp := none
        requests := 5
        sleeps := [30, 30, 30, 30, 30] } := by
  have e0 := hbad 0 (by omega)
  have e1 := hbad 1 (by omega)
  have e2 := hbad 2 (by omega)
  have e3 := hbad 3 (by omega)
  have e4 := hbad 4 (by omega)
  calc fetchLoop a 5 0 {}
      = fetchLoop a 4 1
          { err := some ("getting event contents: " ++ msgs 0)
            resp := none, requests := 1, sleeps := [30] } :=
        fetchLoop_transport a 4 0 {} (msgs 0) e0
    _ = fetchLoop a 3 2
          { err := some ("getting event contents: " ++ msgs 1)
            resp := none, requests := 2, sleeps := [30, 30] } :=
        fetchLoop_transport a 3 1 _ (msgs 1) e1
    _ = fetchLoop a 2 3
          { err := some ("getting event contents: " ++ msgs 2)
            resp := none, requests := 3, sleeps := [30, 30, 30] } :=
        fetchLoop_transport a 2 2 _ (msgs 2) e2
    _ = fetchLoop a 1 4
          { err := some ("getting event contents: " ++ msgs 3)
            resp := none, requests := 4, sleeps := [30, 30, 30, 30] } :=
        fetchLoop_transport a 1 3 _ (msgs 3) e3
    _ = fetchLoop a 0 5
          { err := some ("getting event contents: " ++ msgs 4)
            resp := none, requests := 5, sleeps := [30, 30, 30, 30, 30] } :=
        fetchLoop_transport a 0 4 _ (msgs 4) e4
    _ = { err := some ("getting event contents: " ++ msgs 4)
          resp := none, requests := 5, sleeps := [30, 30, 30, 30, 30] } := rfl

/-- Without a video block, `DataFileReader` is the retry loop. -/
theorem dataFileReader_no_video (m : eventItem) (hv : m.EventMetadata.Video = none)
    (a : Nat → FetchAttempt) : m.DataFileReader a = runFetch a := by
  simp [eventItem.DataFileReader, hv]

/-- C5: the fetch makes at most 5 attempts, sleeping 30s after a transport
error and 15s after a non-200 status; when the first four attempts return
a bad status and the 5th returns HTTP 200 it succeeds — the 5th attempt's
open body with a nil error, since the `http.Get` assignment clears the
error variable on every completed exchange; when all 5 attempts return a
bad status it returns the last observed error, whose message carries the
last response body truncated to at most 256 KiB; when all 5 attempts fail
at transport level it returns the last wrapped transport error with a nil
stream. -/
theorem C5_retry_contract (m : eventItem) (hv : m.EventMetadata.Video = none) :
    (∀ a : Nat → FetchAttempt, (m.DataFileReader a).requests ≤ 5) ∧
    (∀ (a : Nat → FetchAttempt) (c : Nat → Nat) (s b : Nat → String) (r : Nat → Bool),
      (∀ i, i < 4 → a i = .response (c i) (s i) (b i) (r i) ∧ c i ≠ 200) →
      a 4 = .response 200 (s 4) (b 4) (r 4) →
      m.DataFileReader a =
        { stream := some { statusCode := 200, status := s 4, bodyText := b 4, closed := false }
          error := none
          requests := 5
          sleeps := [15, 15, 15, 15] }) ∧
    (∀ (a : Nat → FetchAttempt) (c : Nat → Nat) (s b : Nat → String) (r : Nat → Bool),
      (∀ i, i < 5 → a i = .response (c i) (s i) (b i) (r i) ∧ c i ≠ 200) →
      m.DataFileReader a =
        { stream := some { statusCode := c 4, status := s 4, bodyText := b 4, closed := true }
          error := some (badStatusErr (c 4) (s 4) (b 4) (r 4))
          requests := 5
          sleeps := [15, 15, 15, 15, 15] }) ∧
    (∀ (a : Nat → FetchAttempt) (msgs : Nat → String),
      (∀ i, i < 5 → a i = .transportError (msgs i)) →
      m.DataFileReader a =
        { stream := none
          error := some ("getting event contents: " ++ msgs 4)
          requests := 5
          sleeps := [30, 30, 30, 30, 30] }) := by
  refine ⟨fun a => ?_, fun a c s b r hbad hok => ?_, fun a c s b r hbad => ?_,
    fun a msgs hbad => ?_⟩
  · rw [dataFileReader_no_video m hv a, runFetch_eq a]
    have := fetchLoop_requests_le a 5 0 {}
    simpa using this
  · rw [dataFileReader_no_video m hv a, runFetch_eq a,
      fetchLoop_four_bad_then_ok a c s b r hbad hok]
  · rw [dataFileReader_no_video m hv a, runFetch_eq a, fetchLoop_five_bad a c s b r hbad]
  · rw [dataFileReader_no_video m hv a, runFetch_eq a, fetchLoop_five_transport a msgs hbad]

/-- Witness for C5: the concrete 4-times-500-then-200 URL succeeds with
the 5th attempt's body and a nil error. -/
theorem C5_retry_contract_witness :
    ({} : eventItem).DataFileReader
      (fun i => if i < 4 then FetchAttempt.response 500 "500 Internal Server Error" "boom" true
                else FetchAttempt.response 200 "200 OK" "payload" true) =
      { stream := some { statusCode := 200, status := "200 OK",
                         bodyText := "payload", closed := false }
        error := none
        requests := 5
        sleeps := [15, 15, 15, 15] } := by
  have h := (C5_retry_contract {} rfl).2.1
    (fun i => if i < 4 then FetchAttempt.response 500 "500 Internal Server Error" "boom" true
              else FetchAttempt.response 200 "200 OK" "payload" true)
    (fun _ => 500)
    (fun i => if i = 4 then "200 OK" else "500 Internal Server Error")
    (fun i => if i = 4 then "payload" else "boom")
    (fun _ => true)
    (by
      intro i hi
      have h4 : i ≠ 4 := by omega
      simp [hi, h4])
    (by simp)
  exact h.trans (by decide)

/-- C10: when all 5 attempts receive a non-200 HTTP response,
`DataFileReader` returns both a non-nil error — the last attempt's — and a
non-nil byte stream, namely the last response body already closed during
the retry loop. -/
theorem C10_failed_fetch_closed_stream (m : eventItem) (a : Nat → FetchAttempt)
    (c : Nat → Nat) (s b : Nat → String) (r : Nat → Bool)
    (hv : m.EventMetadata.Video = none)
    (hbad : ∀ i, i < 5 → a i = .response (c i) (s i) (b i) (r i) ∧ c i ≠ 200) :
    (m.DataFileReader a).error.isSome = true ∧
    (m.DataFileReader a).stream =
      some { statusCode := c 4, status := s 4, bodyText := b 4, closed := true } ∧
    (m.DataFileReader a).error = some (badStatusErr (c 4) (s 4) (b 4) (r 4)) := by
  rw [dataFileReader_no_video m hv a, runFetch_eq a, fetchLoop_five_bad a c s b r hbad]
  exact ⟨rfl, rfl, rfl⟩

/-- Witness for C10: five consecutive HTTP 503 responses. -/
theorem C10_failed_fetch_closed_stream_witness :
    (({} : eventItem).DataFileReader
      (fun _ => FetchAttempt.response 503 "503 Service Unavailable" "overloaded" true)).error.isSome
        = true ∧
    (({} : eventItem).DataFileReader
      (fun _ => FetchAttempt.response 503 "503 Service Unavailable" "overloaded" true)).stream =
      some { statusCode := 503, status := "503 Service Unavailable",
             bodyText := "overloaded", closed := true } ∧
    (({} : eventItem).DataFileReader
      (fun _ => FetchAttempt.response 503 "503 Service Unavailable" "overloaded" true)).error =
      some (badStatusErr 503 "503 Service Unavailable" "overloaded" true) :=
  C10_failed_fetch_closed_stream {}
    (fun _ => FetchAttempt.response 503 "503 Service Unavailable" "overloaded" true)
    (fun _ => 503) (fun _ => "503 Service Unavailable") (fun _ => "overloaded") (fun _ => true)
    rfl (fun i hi => ⟨rfl, by norm_num⟩)

end GoogleCalendar
